import Mathlib

/-
Verification of the Telegram-Ads-CPM pipeline (src/main.py) against its
natural-language specification.  The Python source is shallowly embedded:
machine floats are modelled as rationals, fallible code returns Except/Option,
and the wall clock is passed explicitly where the source reads it.
-/

namespace TgCpm

/-- Python truncation toward zero, as performed by `int(x)` on a float. -/
def pyTrunc (q : ℚ) : ℤ := if 0 ≤ q then ⌊q⌋ else ⌈q⌉

/-- Round-half-to-even at integer resolution, the rounding used by Python's
builtin `round`. -/
def roundHalfEven (x : ℚ) : ℤ :=
  if x - ⌊x⌋ < 1/2 then ⌊x⌋
  else if 1/2 < x - ⌊x⌋ then ⌊x⌋ + 1
  else if ⌊x⌋ % 2 = 0 then ⌊x⌋ else ⌊x⌋ + 1

/-- Python `round(x, 2)`: round half to even to the nearest multiple of 1/100. -/
def pyRound2 (q : ℚ) : ℚ := (roundHalfEven (q * 100) : ℚ) / 100

theorem roundHalfEven_ge_floor (x : ℚ) : ⌊x⌋ ≤ roundHalfEven x := by
  unfold roundHalfEven
  split_ifs <;> omega

theorem roundHalfEven_le_floor_add_one (x : ℚ) : roundHalfEven x ≤ ⌊x⌋ + 1 := by
  unfold roundHalfEven
  split_ifs <;> omega

theorem roundHalfEven_mono {x y : ℚ} (h : x ≤ y) :
    roundHalfEven x ≤ roundHalfEven y := by
  rcases lt_or_eq_of_le (Int.floor_le_floor h) with hf | hf
  · calc roundHalfEven x ≤ ⌊x⌋ + 1 := roundHalfEven_le_floor_add_one x
      _ ≤ ⌊y⌋ := by omega
      _ ≤ roundHalfEven y := roundHalfEven_ge_floor y
  · have hcast : ((⌊x⌋ : ℚ)) = ((⌊y⌋ : ℚ)) := by rw [hf]
    unfold roundHalfEven
    rw [hf]
    split_ifs <;> first | omega | linarith

theorem pyRound2_mono {x y : ℚ} (h : x ≤ y) : pyRound2 x ≤ pyRound2 y := by
  unfold pyRound2
  have : roundHalfEven (x * 100) ≤ roundHalfEven (y * 100) :=
    roundHalfEven_mono (by linarith)
  have hc : ((roundHalfEven (x * 100) : ℚ)) ≤ ((roundHalfEven (y * 100) : ℚ)) := by
    exact_mod_cast this
  linarith

/-- Numeric value of an ASCII digit character. -/
def digitVal? (c : Char) : Option ℕ :=
  if '0' ≤ c ∧ c ≤ '9' then some (c.toNat - 48) else none

def digitsToNatAux : List Char → ℕ → Option ℕ
  | [], acc => some acc
  | c :: cs, acc =>
    match digitVal? c with
    | some d => digitsToNatAux cs (acc * 10 + d)
    | none => none

/-- Value of a nonempty all-digit character list. -/
def digitsToNat? : List Char → Option ℕ
  | [] => none
  | cs => digitsToNatAux cs 0

/-- Python `int(s)` on the string shapes reachable in this program after
separator stripping: an optional sign followed by decimal digits.  (Underscore
separators and non-ASCII digits are not modelled.) -/
def pyInt? (s : String) : Option ℤ :=
  match s.toList with
  | '-' :: cs => (digitsToNat? cs).map (fun n => -(n : ℤ))
  | '+' :: cs => (digitsToNat? cs).map (fun n => (n : ℤ))
  | cs => (digitsToNat? cs).map (fun n => (n : ℤ))

/-- Longest leading run of digits, returned with the rest of the input. -/
def takeDigits : List Char → List ℕ × List Char
  | [] => ([], [])
  | c :: cs =>
    match digitVal? c with
    | some d =>
      let r := takeDigits cs
      (d :: r.1, r.2)
    | none => ([], c :: cs)

def natOfDigits (ds : List ℕ) : ℕ := ds.foldl (fun a d => a * 10 + d) 0

/-- Exponent part of a float literal: optional sign then digits. -/
def pyExpPart? (cs : List Char) : Option ℤ :=
  match cs with
  | '+' :: ds => (digitsToNat? ds).map (fun n => (n : ℤ))
  | '-' :: ds => (digitsToNat? ds).map (fun n => -(n : ℤ))
  | ds => (digitsToNat? ds).map (fun n => (n : ℤ))

def zpow10 (k : ℤ) : ℚ :=
  if 0 ≤ k then ((10 : ℚ) ^ k.toNat) else 1 / (10 : ℚ) ^ (-k).toNat

/-- Unsigned decimal float literal: digits, optional point and fraction,
optional exponent; at least one digit overall. -/
def pyFloatMag? (cs : List Char) : Option ℚ :=
  let ipr := takeDigits cs
  let fpr : List ℕ × List Char :=
    match ipr.2 with
    | '.' :: r => takeDigits r
    | r => ([], r)
  if ipr.1.isEmpty ∧ fpr.1.isEmpty then none
  else
    let mant : ℚ := (natOfDigits ipr.1 : ℚ) + (natOfDigits fpr.1 : ℚ) / (10 : ℚ) ^ fpr.1.length
    match (match ipr.2 with
           | '.' :: r => (takeDigits r).2
           | r => r) with
    | [] => some mant
    | 'e' :: es => (pyExpPart? es).map (fun k => mant * zpow10 k)
    | 'E' :: es => (pyExpPart? es).map (fun k => mant * zpow10 k)
    | _ => none

/-- Python `float(s)` on decimal literals (`inf`/`nan` and surrounding
whitespace, which cannot reach the call sites modelled here, are omitted). -/
def pyFloat? (s : String) : Option ℚ :=
  match s.toList with
  | '-' :: cs => (pyFloatMag? cs).map (fun q => -q)
  | '+' :: cs => pyFloatMag? cs
  | cs => pyFloatMag? cs

/-- Effect of `value.replace(',', '').replace(' ', '').replace('.', '')` used
on candidate subscriber strings. -/
def cleanSubsStr (s : String) : String :=
  String.mk (s.toList.filter (fun c => c != ',' && c != ' ' && c != '.'))

/-- Effect of `value.replace(',', '').replace(' ', '')` used on `avg_views`
strings. -/
def cleanFloatStr (s : String) : String :=
  String.mk (s.toList.filter (fun c => c != ',' && c != ' '))

/-- Python `s.lower()` (ASCII case folding, the range the keyword tables
exercise). -/
def pyLower (s : String) : String := String.mk (s.toList.map Char.toLower)

def isSpaceChar (c : Char) : Bool :=
  c = ' ' || c = '\t' || c = '\n' || c = '\r' || c = '\x0b' || c = '\x0c'

/-- Python `s.strip()` (ASCII whitespace). -/
def pyStrip (s : String) : String :=
  String.mk (((s.toList.dropWhile isSpaceChar).reverse.dropWhile isSpaceChar).reverse)

/-- Enum `ChannelNiche` of src/main.py. -/
inductive ChannelNiche
  | crypto | tech | business | entertainment | news | gaming | finance | education | lifestyle
deriving DecidableEq, Repr

/-- Timezone-naive `datetime` value. -/
structure PyDateTime where
  year : ℕ
  month : ℕ
  day : ℕ
  hour : ℕ := 0
  minute : ℕ := 0
  second : ℕ := 0
deriving DecidableEq, Repr

/-- Value held in `last_post_date`: either a parsed concrete datetime or the
symbolic `datetime.now() - timedelta(days=n)` default the code falls back to. -/
inductive PyTime
  | known (d : PyDateTime)
  | nowMinusDays (n : ℕ)
deriving DecidableEq, Repr

/-- Dataclass `ChannelMetrics` of src/main.py.  Numeric floats are rationals;
`recent_posts` is rational because the Python code stores unconverted payload
values in it. -/
structure ChannelMetrics where
  username : String
  title : String
  subscribers : ℤ
  is_public : Bool
  is_verified : Bool
  description : String
  recent_posts : ℚ
  avg_views : ℚ
  engagement_rate : ℚ
  last_post_date : PyTime
  niche : ChannelNiche
  has_profile_photo : Bool
  content_quality_score : ℚ
  total_forwards : ℤ := 0
  total_reactions : ℤ := 0
  media_ratio : ℚ := 0
  posts_per_day : ℚ := 0
deriving DecidableEq, Repr

/-- Dataclass `EligibilityResult` of src/main.py. -/
structure EligibilityResult where
  eligible : Bool
  reasons : List String
  warnings : List String
  confidence : ℚ
deriving DecidableEq, Repr

/-- Dataclass `CPMRecommendation` of src/main.py.  The display-only
`reasoning` string (pure presentation built by `_generate_reasoning`) is not
modelled. -/
structure CPMRecommendation where
  conservative : ℚ
  competitive : ℚ
  aggressive : ℚ
  market_position : String
  success_probability : ℚ
deriving DecidableEq, Repr

/-- Dataclass `Config`, with the environment-variable defaults of the
source (`MIN_CPM_TON=0.1`, `MIN_SUBSCRIBERS=1000`, `ACTIVITY_DAYS=14`). -/
structure Config where
  MIN_CPM_TON : ℚ := 1/10
  MIN_SUBSCRIBERS : ℤ := 1000
  ACTIVITY_DAYS : ℤ := 14
deriving Repr

def defaultConfig : Config := {}

/-- Dict `CPMCalculator.niche_multipliers` (total: all nine niches are keys,
so the `.get(niche, 1.0)` default is unreachable). -/
def niche_multiplier : ChannelNiche → ℚ
  | .crypto => 14/10
  | .finance => 13/10
  | .tech => 12/10
  | .business => 11/10
  | .gaming => 1
  | .education => 9/10
  | .news => 8/10
  | .entertainment => 7/10
  | .lifestyle => 8/10

/-- List `CPMCalculator.subscriber_tiers`. -/
def subscriber_tiers : List (ℤ × ℚ) :=
  [(1000, 15/100), (10000, 25/100), (50000, 45/100), (100000, 75/100)]

def firstTier : List (ℤ × ℚ) → ℤ → Option ℚ
  | [], _ => none
  | (t, c) :: rest, s => if s ≥ t then some c else firstTier rest s

/-- Method `CPMCalculator._get_base_cpm`: walk the tiers from highest to
lowest, first tier met wins; below all tiers return `subscriber_tiers[0][1]`
(= 0.15). -/
def get_base_cpm (subscribers : ℤ) : ℚ :=
  (firstTier subscriber_tiers.reverse subscribers).getD (15/100)

/-- Method `CPMCalculator._get_engagement_multiplier`. -/
def get_engagement_multiplier (e : ℚ) : ℚ :=
  if e ≥ 50 then 13/10
  else if e ≥ 30 then 115/100
  else if e ≥ 20 then 1
  else if e ≥ 10 then 9/10
  else 8/10

/-- Method `CPMCalculator._get_interaction_multiplier`. -/
def get_interaction_multiplier (m : ChannelMetrics) : ℚ :=
  if m.total_reactions = 0 ∧ m.total_forwards = 0 then 1
  else
    if m.avg_views > 0 then
      let interaction_rate : ℚ := (m.total_reactions + m.total_forwards : ℤ) / (m.avg_views * 100)
      if interaction_rate > 10 then 12/10
      else if interaction_rate > 5 then 11/10
      else if interaction_rate < 1 then 95/100
      else 1
    else 1

/-- Method `CPMCalculator._get_frequency_multiplier`. -/
def get_frequency_multiplier (posts_per_day : ℚ) : ℚ :=
  if posts_per_day = 0 then 1
  else if posts_per_day ≥ 2 then 11/10
  else if posts_per_day ≥ 1 then 105/100
  else if posts_per_day ≥ 1/2 then 1
  else 95/100

/-- Method `CPMCalculator._assess_market_position`. -/
def assess_market_position (m : ChannelMetrics) : String :=
  if m.engagement_rate ≥ 40 ∧ m.subscribers ≥ 50000 then
    "Premium channel - high competition expected"
  else if m.engagement_rate ≥ 25 ∧ m.subscribers ≥ 10000 then
    "Strong performer - competitive market"
  else if m.engagement_rate ≥ 15 then
    "Average performer - moderate competition"
  else
    "Below average - easier entry but lower ROI"

/-- Method `CPMCalculator.calculate_cpm`.  Note that `aggressive` is computed
from the already-floored competitive price, exactly as in the source. -/
def calculate_cpm (cfg : Config) (m : ChannelMetrics) (elig : EligibilityResult) :
    CPMRecommendation :=
  let base_cpm := get_base_cpm m.subscribers
  let niche_m := niche_multiplier m.niche
  let engagement_m := get_engagement_multiplier m.engagement_rate
  let quality_m : ℚ := 8/10 + m.content_quality_score * (4/10)
  let verification_m : ℚ := if m.is_verified then 11/10 else 1
  let interaction_m := get_interaction_multiplier m
  let frequency_m := get_frequency_multiplier m.posts_per_day
  let final_m := niche_m * engagement_m * quality_m * verification_m * interaction_m * frequency_m
  let competitive0 := base_cpm * final_m
  let conservative_cpm := max (competitive0 * (8/10)) cfg.MIN_CPM_TON
  let competitive_cpm := max competitive0 cfg.MIN_CPM_TON
  let aggressive_cpm := max (competitive_cpm * (13/10)) cfg.MIN_CPM_TON
  { conservative := pyRound2 conservative_cpm
    competitive := pyRound2 competitive_cpm
    aggressive := pyRound2 aggressive_cpm
    market_position := assess_market_position m
    success_probability := if elig.eligible then elig.confidence * (7/10) else 1/10 }

/-- Method `EligibilityChecker.check_eligibility`.  The wall-clock quantity
`(datetime.now() - metrics.last_post_date).days` is passed in as
`days_since_last_post` (the timezone stripping in the source only serves to
make that subtraction well-defined). -/
def check_eligibility (cfg : Config) (m : ChannelMetrics) (days_since_last_post : ℤ) :
    EligibilityResult :=
  let failPublic := !m.is_public
  let failSubs : Bool := m.subscribers < cfg.MIN_SUBSCRIBERS
  let failActivity : Bool := days_since_last_post > cfg.ACTIVITY_DAYS
  let eligible := !(failPublic || failSubs || failActivity)
  let reasons :=
    (if failPublic then ["❌ Channel must be public"] else []) ++
    (if failSubs then
      ["❌ Needs " ++ toString cfg.MIN_SUBSCRIBERS ++ "+ subscribers (has " ++
        toString m.subscribers ++ ")"] else []) ++
    (if failActivity then
      ["❌ No activity in last " ++ toString cfg.ACTIVITY_DAYS ++ " days"] else []) ++
    (if eligible then ["✅ Meets basic Telegram ads requirements"] else [])
  let wPhoto := !m.has_profile_photo
  let wDesc : Bool := m.description = ""
  let wEng : Bool := m.engagement_rate < 10
  let wQual : Bool := m.content_quality_score < 3/10
  let warnings :=
    (if wPhoto then ["⚠️ Missing profile photo"] else []) ++
    (if wDesc then ["⚠️ Missing channel description"] else []) ++
    (if wEng then ["⚠️ Low engagement rate (<10%)"] else []) ++
    (if wQual then ["⚠️ Low content quality score"] else [])
  let confidence : ℚ := 1 - (if wPhoto then 1/10 else 0) - (if wDesc then 1/10 else 0)
    - (if wEng then 2/10 else 0) - (if wQual then 1/10 else 0)
  { eligible := eligible
    reasons := reasons
    warnings := warnings
    confidence := max confidence 0 }

/-- Raw JSON value held by a numeric payload field: absent, a number, a
string, or some other (non-numeric, non-string) object. -/
inductive RawField
  | absent
  | num (q : ℚ)
  | str (s : String)
  | other
deriving DecidableEq, Repr

/-- Candidate subscriber-count fields probed by
`ChannelAnalyzer._extract_subscribers`, in the source's order. -/
structure SubsFields where
  participants_count : RawField := .absent
  subscribers_count : RawField := .absent
  member_count : RawField := .absent
  subscribers : RawField := .absent
  members : RawField := .absent
  participants : RawField := .absent
  count : RawField := .absent
  subs : RawField := .absent
  participantsCount : RawField := .absent
  subscribersCount : RawField := .absent
  memberCount : RawField := .absent
deriving DecidableEq, Repr

def subsFieldList (p : SubsFields) : List RawField :=
  [p.participants_count, p.subscribers_count, p.member_count, p.subscribers, p.members,
   p.participants, p.count, p.subs, p.participantsCount, p.subscribersCount, p.memberCount]

/-- One iteration of the probing loop in `_extract_subscribers`: a present
field yields `some n` on a successful parse; `none` means the loop falls
through to the next candidate (absent key, wrong type, or parse failure). -/
def subsCandidate : RawField → Option ℤ
  | .absent => none
  | .num q => some (pyTrunc q)
  | .str s => pyInt? (cleanSubsStr s)
  | .other => none

def extractFromFields (p : SubsFields) : Option ℤ :=
  (subsFieldList p).findSome? subsCandidate

/-- Method `ChannelAnalyzer._extract_subscribers`.  The recursive descent into
a `stats` sub-dict is modelled one level deep, which the payload type below
makes exact. -/
def extract_subscribers (fields : SubsFields) (stats : Option SubsFields) : ℤ :=
  match extractFromFields fields with
  | some n => n
  | none =>
    match stats with
    | some st => (extractFromFields st).getD 0
    | none => 0

/-- Raw Telemetr.io payload, with the fields the normalizer probes.  The
eleven subscriber candidates (and the one-level `stats` nesting) are grouped
in `fields`; `er` stands for an engagement-rate field a provider may send,
which the code never reads. -/
structure TelemetrioPayload where
  title : Option String := none
  name : Option String := none
  fields : SubsFields := {}
  stats : Option SubsFields := none
  avg_views : RawField := .absent
  avgViews : RawField := .absent
  er : RawField := .absent
  verified : Option Bool := none
  is_verified : Option Bool := none
  description : Option String := none
  about : Option String := none
  posts_last_week : Option ℚ := none
  recent_posts : Option ℚ := none
  has_photo : Option Bool := none
  last_post : Option String := none
  lastPost : Option String := none
  last_activity : Option String := none
  updated_at : Option String := none
deriving Repr

/- Model of `datetime.strptime` for the three formats of
`_parse_last_post_date`, following CPython's `_strptime` regexes:
each directive is an ordered alternation, and the whole input must be
consumed. -/

/-- Directive `%Y`: exactly four digits. -/
def matchYear : List Char → Option (ℕ × List Char)
  | a :: b :: c :: d :: rest =>
    match digitVal? a, digitVal? b, digitVal? c, digitVal? d with
    | some x, some y, some z, some w => some (((x * 10 + y) * 10 + z) * 10 + w, rest)
    | _, _, _, _ => none
  | _ => none

/-- Directive `%m`: alternation `1[0-2] | 0[1-9] | [1-9]`. -/
def matchMonth : List Char → Option (ℕ × List Char)
  | '1' :: c :: rest =>
    if '0' ≤ c ∧ c ≤ '2' then some (10 + (c.toNat - 48), rest) else some (1, c :: rest)
  | ['1'] => some (1, [])
  | '0' :: c :: rest =>
    if '1' ≤ c ∧ c ≤ '9' then some (c.toNat - 48, rest) else none
  | c :: rest => if '2' ≤ c ∧ c ≤ '9' then some (c.toNat - 48, rest) else none
  | [] => none

/-- Directive `%d`: alternation `3[01] | [12][0-9] | 0[1-9] | [1-9]`. -/
def matchDay : List Char → Option (ℕ × List Char)
  | '3' :: c :: rest =>
    if c = '0' ∨ c = '1' then some (30 + (c.toNat - 48), rest) else some (3, c :: rest)
  | ['3'] => some (3, [])
  | c :: c2 :: rest =>
    if (c = '1' ∨ c = '2') ∧ c2.isDigit then
      some ((c.toNat - 48) * 10 + (c2.toNat - 48), rest)
    else if c = '0' ∧ ('1' ≤ c2 ∧ c2 ≤ '9') then some (c2.toNat - 48, rest)
    else if '1' ≤ c ∧ c ≤ '9' then some (c.toNat - 48, c2 :: rest)
    else none
  | [c] => if '1' ≤ c ∧ c ≤ '9' then some (c.toNat - 48, []) else none
  | [] => none

/-- Directive `%H`: alternation `2[0-3] | [0-1][0-9] | [0-9]`. -/
def matchHour : List Char → Option (ℕ × List Char)
  | '2' :: c :: rest =>
    if '0' ≤ c ∧ c ≤ '3' then some (20 + (c.toNat - 48), rest) else some (2, c :: rest)
  | ['2'] => some (2, [])
  | c :: c2 :: rest =>
    if (c = '0' ∨ c = '1') ∧ c2.isDigit then
      some ((c.toNat - 48) * 10 + (c2.toNat - 48), rest)
    else if c.isDigit then some (c.toNat - 48, c2 :: rest)
    else none
  | [c] => if c.isDigit then some (c.toNat - 48, []) else none
  | [] => none

/-- Directive `%M`: alternation `[0-5][0-9] | [0-9]`. -/
def matchMinute : List Char → Option (ℕ × List Char)
  | c :: c2 :: rest =>
    if ('0' ≤ c ∧ c ≤ '5') ∧ c2.isDigit then
      some ((c.toNat - 48) * 10 + (c2.toNat - 48), rest)
    else if c.isDigit then some (c.toNat - 48, c2 :: rest)
    else none
  | [c] => if c.isDigit then some (c.toNat - 48, []) else none
  | [] => none

/-- Directive `%S`: alternation `6[0-1] | [0-5][0-9] | [0-9]`. -/
def matchSecond : List Char → Option (ℕ × List Char)
  | '6' :: c :: rest =>
    if c = '0' ∨ c = '1' then some (60 + (c.toNat - 48), rest) else some (6, c :: rest)
  | ['6'] => some (6, [])
  | c :: c2 :: rest =>
    if ('0' ≤ c ∧ c ≤ '5') ∧ c2.isDigit then
      some ((c.toNat - 48) * 10 + (c2.toNat - 48), rest)
    else if c.isDigit then some (c.toNat - 48, c2 :: rest)
    else none
  | [c] => if c.isDigit then some (c.toNat - 48, []) else none
  | [] => none

def matchLit (c : Char) : List Char → Option (List Char)
  | x :: rest => if x = c then some rest else none
  | [] => none

def isLeapYear (y : ℕ) : Bool := (y % 4 = 0 && y % 100 != 0) || y % 400 = 0

def daysInMonth (y m : ℕ) : ℕ :=
  if m = 2 then (if isLeapYear y then 29 else 28)
  else if m = 4 ∨ m = 6 ∨ m = 9 ∨ m = 11 then 30
  else 31

/-- Validation done by the `datetime` constructor after the regex match. -/
def validDateTime (d : PyDateTime) : Bool :=
  1 ≤ d.year && d.year ≤ 9999 && 1 ≤ d.month && d.month ≤ 12 &&
  1 ≤ d.day && d.day ≤ daysInMonth d.year d.month &&
  d.hour ≤ 23 && d.minute ≤ 59 && d.second ≤ 59

/-- Format string `%Y-%m-%d` applied to a character list (whole input must
be consumed, then the datetime constructor validates). -/
def strptimeYmd (cs : List Char) : Option PyDateTime := do
  let (y, r1) ← matchYear cs
  let r2 ← matchLit '-' r1
  let (mo, r3) ← matchMonth r2
  let r4 ← matchLit '-' r3
  let (d, r5) ← matchDay r4
  if r5.isEmpty then
    let dt : PyDateTime := ⟨y, mo, d, 0, 0, 0⟩
    if validDateTime dt then some dt else none
  else none

/-- Format strings `%Y-%m-%dT%H:%M:%S` and `%Y-%m-%d %H:%M:%S`, abstracted
over the separator character. -/
def strptimeYmdHms (sep : Char) (cs : List Char) : Option PyDateTime := do
  let (y, r1) ← matchYear cs
  let r2 ← matchLit '-' r1
  let (mo, r3) ← matchMonth r2
  let r4 ← matchLit '-' r3
  let (d, r5) ← matchDay r4
  let r6 ← matchLit sep r5
  let (h, r7) ← matchHour r6
  let r8 ← matchLit ':' r7
  let (mi, r9) ← matchMinute r8
  let r10 ← matchLit ':' r9
  let (se, r11) ← matchSecond r10
  if r11.isEmpty then
    let dt : PyDateTime := ⟨y, mo, d, h, mi, se⟩
    if validDateTime dt then some dt else none
  else none

/-- The inner format loop of `_parse_last_post_date`: each format is tried on
`date_str[:len(fmt)]`, i.e. the input truncated to the LENGTH OF THE FORMAT
STRING — 8 for the date-only format and 17 for both date+time formats —
exactly as the source slices it. -/
def tryDateFormats (s : String) : Option PyDateTime :=
  let cs := s.toList
  match strptimeYmd (cs.take 8) with
  | some d => some d
  | none =>
    match strptimeYmdHms 'T' (cs.take 17) with
    | some d => some d
    | none => strptimeYmdHms ' ' (cs.take 17)

/-- Method `ChannelAnalyzer._parse_last_post_date`: probe the four date
fields in order (skipping absent or empty ones), first field whose string
parses under some format wins; otherwise `datetime.now() - timedelta(days=1)`. -/
def parse_last_post_date (p : TelemetrioPayload) : PyTime :=
  match [p.last_post, p.lastPost, p.last_activity, p.updated_at].findSome?
      (fun f =>
        match f with
        | some s => if s = "" then none else tryDateFormats s
        | none => none) with
  | some d => .known d
  | none => .nowMinusDays 1

/-- Contiguous-sublist test on character lists. -/
def containsSubList (needle : List Char) : List Char → Bool
  | [] => needle.isEmpty
  | c :: rest => needle.isPrefixOf (c :: rest) || containsSubList needle rest

/-- Substring test `keyword in text` on Python strings. -/
def containsSub (hay needle : String) : Bool := containsSubList needle.toList hay.toList

/-- Keyword table of `ChannelAnalyzer._classify_niche`, in declaration order
(Python dicts preserve insertion order). -/
def nicheKeywords : List (ChannelNiche × List String) :=
  [(.crypto, ["crypto", "bitcoin", "blockchain", "defi", "nft", "trading", "altcoin"]),
   (.tech, ["tech", "technology", "programming", "ai", "software", "developer"]),
   (.business, ["business", "entrepreneur", "startup", "marketing", "sales"]),
   (.finance, ["finance", "investment", "stock", "forex", "money"]),
   (.news, ["news", "breaking", "daily", "update", "current"]),
   (.gaming, ["gaming", "game", "esports", "gamer"]),
   (.education, ["education", "learning", "course", "tutorial"]),
   (.entertainment, ["entertainment", "fun", "meme", "funny"])]

/-- Method `ChannelAnalyzer._classify_niche`: lower-cased concatenation,
first category in declaration order with any keyword substring match,
default entertainment. -/
def classify_niche (title description : String) : ChannelNiche :=
  let text := pyLower (title ++ " " ++ description)
  match nicheKeywords.find? (fun p => p.2.any (fun k => containsSub text k)) with
  | some p => p.1
  | none => .entertainment

/-- Keyword table of `TGStatAnalyzer._classify_niche_tgstat`. -/
def nicheKeywordsTgstat : List (ChannelNiche × List String) :=
  [(.crypto, ["crypto", "bitcoin", "blockchain", "defi", "nft", "trading", "btc", "eth"]),
   (.tech, ["tech", "technology", "programming", "ai", "software"]),
   (.business, ["business", "entrepreneur", "startup", "marketing"]),
   (.finance, ["finance", "investment", "stock", "forex", "money"]),
   (.news, ["news", "breaking", "daily", "update"]),
   (.gaming, ["gaming", "game", "esports", "gamer"]),
   (.education, ["education", "learning", "course", "tutorial"]),
   (.entertainment, ["entertainment", "fun", "meme", "funny"])]

/-- Method `TGStatAnalyzer._classify_niche_tgstat`. -/
def classify_niche_tgstat (title description : String) : ChannelNiche :=
  let text := pyLower (title ++ " " ++ description)
  match nicheKeywordsTgstat.find? (fun p => p.2.any (fun k => containsSub text k)) with
  | some p => p.1
  | none => .entertainment

/-- Method `ChannelAnalyzer._assess_telemetrio_quality`.  It re-reads the raw
`avg_views` field (with no `avgViews` fallback and no string coercion):
dividing a string or object by a positive subscriber count raises an uncaught
`TypeError`, modelled as `.error`.  An absent field defaults to 0, giving a
zero engagement bonus. -/
def assess_telemetrio_quality (p : TelemetrioPayload) : Except Unit ℚ :=
  let subscribers := extract_subscribers p.fields p.stats
  let engBonus : Except Unit ℚ :=
    if subscribers > 0 then
      match p.avg_views with
      | .num q =>
        .ok (if q / subscribers * 100 > 30 then 3/10
             else if q / subscribers * 100 > 15 then 2/10 else 0)
      | .absent => .ok 0
      | _ => .error ()
    else .ok 0
  match engBonus with
  | .error _ => .error ()
  | .ok b1 =>
    let recent_posts := p.posts_last_week.getD 0
    let b2 : ℚ := if recent_posts ≥ 7 then 2/10 else if recent_posts ≥ 3 then 1/10 else 0
    let b3 : ℚ := if p.verified.getD false then 2/10 else 0
    let desc := p.description.getD ""
    let b4 : ℚ := if desc ≠ "" ∧ desc.length > 50 then 1/10 else 0
    .ok (min (1/2 + b1 + b2 + b3 + b4) 1)

/-- Method `ChannelAnalyzer._process_telemetrio_data`.  `.error ()` marks
exactly the inputs on which the Python function raises an uncaught exception:
an `avg_views` value that is a non-numeric string (the bare `float(...)` call
at the coercion), a non-numeric non-string object, or a parseable string
combined with positive subscribers (the re-read inside the quality scorer). -/
def process_telemetrio_data (username : String) (p : TelemetrioPayload) :
    Except Unit ChannelMetrics :=
  let title := p.title.getD (p.name.getD username)
  let subscribers := extract_subscribers p.fields p.stats
  let avRaw : RawField :=
    match p.avg_views with
    | .absent => (match p.avgViews with | .absent => .num 0 | v => v)
    | v => v
  match (match avRaw with
         | .num q => Except.ok q
         | .str s =>
           (match pyFloat? (cleanFloatStr s) with
            | some q => Except.ok q
            | none => Except.error ())
         | .absent => Except.ok 0
         | .other => Except.error ()) with
  | .error _ => .error ()
  | .ok av =>
    let engagement_rate : ℚ := if subscribers > 0 ∧ av > 0 then av / subscribers * 100 else 0
    let is_verified := p.verified.getD (p.is_verified.getD false)
    let description := p.description.getD (p.about.getD "")
    let recent_posts := p.posts_last_week.getD (p.recent_posts.getD 0)
    let last_post_date := parse_last_post_date p
    let niche := classify_niche title description
    match assess_telemetrio_quality p with
    | .error _ => .error ()
    | .ok content_quality =>
      .ok { username := username
            title := title
            subscribers := subscribers
            is_public := true
            is_verified := is_verified
            description := description
            recent_posts := recent_posts
            avg_views := av
            engagement_rate := pyRound2 engagement_rate
            last_post_date := last_post_date
            niche := niche
            has_profile_photo := p.has_photo.getD true
            content_quality_score := content_quality
            total_forwards := 0
            total_reactions := 0
            media_ratio := 0
            posts_per_day := 0 }

/-- Dict returned by `TelegramHarvester.get_stats` (SQLite cache columns,
possibly overridden by the Bot API lookup).  `Option` marks the fields the
consuming code tests for presence/`None`; the purely numeric columns carry
their `data.get(key, 0)` default. -/
structure HarvPayload where
  username : Option String := none
  handle : Option String := none
  title : Option String := none
  description : Option String := none
  subs : ℚ := 0
  avg_views : ℚ := 0
  posts_per_day : Option ℚ := none
  total_forwards : ℤ := 0
  total_reactions : ℤ := 0
  media_ratio : ℚ := 0
  is_verified : Option Bool := none
deriving Repr

/-- Python `a or b` for an optional string (`None` and the empty string are
falsy). -/
def orStr (a : Option String) (b : String) : String :=
  match a with
  | some s => if s = "" then b else s
  | none => b

/-- Method `ChannelAnalyzer._assess_harvester_quality`. -/
def assess_harvester_quality (d : HarvPayload) : ℚ :=
  let b1 : ℚ :=
    if d.subs > 0 ∧ d.avg_views > 0 then
      if d.avg_views / d.subs * 100 > 30 then 3/10
      else if d.avg_views / d.subs * 100 > 15 then 2/10 else 0
    else 0
  let ppd := d.posts_per_day.getD 0
  let b2 : ℚ := if ppd ≥ 1 then 2/10 else if ppd ≥ 1/2 then 1/10 else 0
  let b3 : ℚ := if d.media_ratio > 1/2 then 1/10 else 0
  let b4 : ℚ := if d.total_reactions > 0 ∨ d.total_forwards > 0 then 1/10 else 0
  let b5 : ℚ := if d.is_verified.getD false then 2/10 else 0
  min (1/2 + b1 + b2 + b3 + b4 + b5) 1

/-- Method `ChannelAnalyzer._process_harvester_data`.  The engagement guard is
Python truthiness (`if data.get('subs', 0) and data.get('avg_views', 0)`),
i.e. both values nonzero. -/
def process_harvester_data (d : HarvPayload) : ChannelMetrics :=
  let engagement_rate : ℚ :=
    if d.subs ≠ 0 ∧ d.avg_views ≠ 0 then d.avg_views / d.subs * 100 else 0
  let title := orStr d.title (orStr d.username (orStr d.handle "Unknown"))
  let description := d.description.getD ""
  let niche := classify_niche title description
  let content_quality := assess_harvester_quality d
  { username := d.username.getD (d.handle.getD "")
    title := title
    subscribers := pyTrunc d.subs
    is_public := true
    is_verified := d.is_verified.getD false
    description := description
    recent_posts := (pyTrunc (d.posts_per_day.getD 0) : ℤ)
    avg_views := d.avg_views
    engagement_rate := pyRound2 engagement_rate
    last_post_date := .nowMinusDays 1
    niche := niche
    has_profile_photo := true
    content_quality_score := content_quality
    total_forwards := d.total_forwards
    total_reactions := d.total_reactions
    media_ratio := d.media_ratio
    posts_per_day := d.posts_per_day.getD 0 }

/-- The supplementation block of `ChannelAnalyzer.analyze_channel`
(src/main.py lines 511-530): after a successful Telemetr.io analysis, if a
gap exists (blank description, zero posts-per-day, or all-zero interaction
metrics) and the harvester returns data, patch the record in place.
`harv = none` models `get_stats` returning nothing. -/
def merge_harvester (metrics : ChannelMetrics) (harv : Option HarvPayload) :
    ChannelMetrics :=
  let needs_desc := pyStrip metrics.description = ""
  let needs_posts := metrics.posts_per_day = 0
  let needs_inter := metrics.total_reactions = 0 ∧ metrics.total_forwards = 0 ∧
    metrics.media_ratio = 0
  if needs_desc ∨ needs_posts ∨ needs_inter then
    match harv with
    | none => metrics
    | some h =>
      let m1 := if needs_desc ∧ (h.description.getD "") ≠ "" then
          { metrics with description := h.description.getD "" } else metrics
      let m2 :=
        match h.posts_per_day with
        | some ppd => if needs_posts then { m1 with posts_per_day := ppd } else m1
        | none => m1
      let m3 := if needs_inter then
          { m2 with total_reactions := h.total_reactions
                    total_forwards := h.total_forwards
                    media_ratio := h.media_ratio } else m2
      match h.is_verified with
      | some v => { m3 with is_verified := v }
      | none => m3
  else metrics

/-- Raw TGStat payload (`process_tgstat_data`'s input), with numeric fields
already numbers — the surrounding try/except turns any ill-typed payload into
`None`, a path outside this typed model.  `er` again stands for an engagement
field the code never reads. -/
structure TGStatPayload where
  title : Option String := none
  description : Option String := none
  participantsCount : ℚ := 0
  avgPostReach : Option ℚ := none
  postsCount : Option ℚ := none
  createdAt : Option String := none
  lastPostDate : Option String := none
  verified : Option Bool := none
  er : ℚ := 0
deriving Repr

/-- Method `TGStatAnalyzer._assess_tgstat_quality`.  `ageDays` carries the
clock-dependent `(datetime.now() - fromisoformat(createdAt)).days`, `none`
when that parse raised. -/
def assess_tgstat_quality (d : TGStatPayload) (subscribers engagement_rate : ℚ)
    (ageDays : Option ℤ) : ℚ :=
  let b1 : ℚ :=
    if engagement_rate > 20 then 3/10
    else if engagement_rate > 10 then 2/10
    else if engagement_rate > 5 then 1/10
    else 0
  let b2 : ℚ :=
    if subscribers > 50000 then 15/100
    else if subscribers > 10000 then 1/10
    else if subscribers > 1000 then 5/100
    else 0
  let desc := d.description.getD ""
  let b3 : ℚ := if desc ≠ "" ∧ desc.length > 50 then 1/10 else 0
  let b4 : ℚ := if d.verified.getD false then 15/100 else 0
  let b5 : ℚ :=
    match d.createdAt, ageDays with
    | some _, some days => if days > 365 then 1/10 else 0
    | _, _ => 0
  min (1/2 + b1 + b2 + b3 + b4 + b5) 1

/-- Method `TGStatAnalyzer.process_tgstat_data`.  Clock-dependent quantities
are parameters: `ageDays` is the `days_active` computed from `createdAt`
(`none` when `fromisoformat` raised), `lastPostParsed` the parse of
`lastPostDate` (`none` when it raised). -/
def process_tgstat_data (username : String) (d : TGStatPayload)
    (ageDays : Option ℤ) (lastPostParsed : Option PyDateTime) : ChannelMetrics :=
  let title := d.title.getD username
  let description := d.description.getD ""
  let subscribers := d.participantsCount
  let avg_views : ℚ := d.avgPostReach.getD 0
  let engagement_rate : ℚ :=
    match d.avgPostReach with
    | some av => if subscribers > 0 then av / subscribers * 100 else 0
    | none => 0
  let posts_per_day : ℚ :=
    match d.postsCount, d.createdAt with
    | some pc, some _ =>
      (match ageDays with
       | some days => if days > 0 then pc / days else 0
       | none => 1/2)
    | _, _ => 0
  let last_post_date : PyTime :=
    match d.lastPostDate, lastPostParsed with
    | some _, some dt => .known dt
    | _, _ => .nowMinusDays 1
  let niche := classify_niche_tgstat title description
  let content_quality := assess_tgstat_quality d subscribers engagement_rate ageDays
  { username := username
    title := title
    subscribers := pyTrunc subscribers
    is_public := true
    is_verified := d.verified.getD false
    description := description
    recent_posts := (max (pyTrunc (posts_per_day * 7)) 1 : ℤ)
    avg_views := avg_views
    engagement_rate := pyRound2 engagement_rate
    last_post_date := last_post_date
    niche := niche
    has_profile_photo := true
    content_quality_score := content_quality
    total_forwards := 0
    total_reactions := 0
    media_ratio := 1/2
    posts_per_day := posts_per_day }

/-! Concrete records used by witnesses and counterexamples. -/

def emptyMetrics : ChannelMetrics :=
  { username := "", title := "", subscribers := 0, is_public := true, is_verified := false,
    description := "", recent_posts := 0, avg_views := 0, engagement_rate := 0,
    last_post_date := .nowMinusDays 1, niche := .entertainment, has_profile_photo := true,
    content_quality_score := 0 }

def emptyElig : EligibilityResult :=
  { eligible := true, reasons := [], warnings := [], confidence := 1 }

/-! Theorems for the claims. -/

theorem max_floor_ordering (c mn : ℚ) (h : 0 ≤ mn) :
    max (c * (8/10)) mn ≤ max c mn ∧ max c mn ≤ max ((max c mn) * (13/10)) mn := by
  constructor
  · apply max_le
    · rcases le_or_lt 0 c with hc | hc
      · exact le_max_of_le_left (by linarith)
      · exact le_max_of_le_right (by linarith)
    · exact le_max_right _ _
  · have h1 : mn ≤ max c mn := le_max_right _ _
    have h2 : (0:ℚ) ≤ max c mn := le_trans h h1
    exact le_max_of_le_left (by linarith)

/-- Claim C1: for every metrics record and eligibility result, the three
prices produced by `calculate_cpm` — each independently floored at the
configured minimum and rounded to two decimals — satisfy
conservative ≤ competitive ≤ aggressive. -/
theorem cpm_prices_ordered (cfg : Config) (m : ChannelMetrics) (e : EligibilityResult)
    (hmin : 0 ≤ cfg.MIN_CPM_TON) :
    (calculate_cpm cfg m e).conservative ≤ (calculate_cpm cfg m e).competitive ∧
    (calculate_cpm cfg m e).competitive ≤ (calculate_cpm cfg m e).aggressive := by
  have key := max_floor_ordering
    (get_base_cpm m.subscribers *
      (niche_multiplier m.niche * get_engagement_multiplier m.engagement_rate *
        (8/10 + m.content_quality_score * (4/10)) * (if m.is_verified then 11/10 else 1) *
        get_interaction_multiplier m * get_frequency_multiplier m.posts_per_day))
    cfg.MIN_CPM_TON hmin
  exact ⟨pyRound2_mono key.1, pyRound2_mono key.2⟩

theorem cpm_prices_ordered_witness :
    (0:ℚ) ≤ defaultConfig.MIN_CPM_TON ∧
    ((calculate_cpm defaultConfig emptyMetrics emptyElig).conservative ≤
        (calculate_cpm defaultConfig emptyMetrics emptyElig).competitive ∧
      (calculate_cpm defaultConfig emptyMetrics emptyElig).competitive ≤
        (calculate_cpm defaultConfig emptyMetrics emptyElig).aggressive) :=
  ⟨by norm_num [defaultConfig],
    cpm_prices_ordered defaultConfig emptyMetrics emptyElig (by norm_num [defaultConfig])⟩

def c2Metrics : ChannelMetrics :=
  { username := "x", title := "x", subscribers := 20000, is_public := true, is_verified := true,
    description := "", recent_posts := 0, avg_views := 6000, engagement_rate := 30,
    last_post_date := .nowMinusDays 1, niche := .crypto, has_profile_photo := true,
    content_quality_score := 8/10, total_forwards := 0, total_reactions := 0,
    media_ratio := 0, posts_per_day := 3/2 }

/-- Claim C2: on the record with 20000 subscribers, 30% engagement, crypto
niche, quality 0.8, verified, 1.5 posts/day and zero interactions, the
competitive price is exactly the hand-computed product
0.25 × 1.4 × 1.15 × 1.12 × 1.1 × 1.0 × 1.05 = 0.520674, i.e. 0.52 after
two-decimal rounding. -/
theorem c2_competitive_price_exact :
    (calculate_cpm defaultConfig c2Metrics emptyElig).competitive = 52/100 ∧
    get_base_cpm 20000 * ((14/10) * (115/100) * (112/100) * (11/10) * 1 * (105/100))
      = 520674/1000000 ∧
    pyRound2 (520674/1000000) = 52/100 := by
  refine ⟨?_, ?_, ?_⟩
  · norm_num [calculate_cpm, c2Metrics, defaultConfig, get_base_cpm, subscriber_tiers,
      firstTier, niche_multiplier, get_engagement_multiplier, get_interaction_multiplier,
      get_frequency_multiplier, pyRound2, roundHalfEven, max_def, Int.floor_eq_iff]
  · norm_num [get_base_cpm, subscriber_tiers, firstTier]
  · norm_num [pyRound2, roundHalfEven, Int.floor_eq_iff]

theorem pyRound2_zero : pyRound2 0 = 0 := by
  norm_num [pyRound2, roundHalfEven, Int.floor_zero]

/-- Inversion helper: a successful Telemetr.io normalization stores the
extracted subscriber count and the rounded, recomputed engagement rate. -/
theorem process_telemetrio_ok_fields (u : String) (p : TelemetrioPayload) (m : ChannelMetrics)
    (h : process_telemetrio_data u p = .ok m) :
    m.subscribers = extract_subscribers p.fields p.stats ∧
    m.engagement_rate = pyRound2 (if 0 < m.subscribers ∧ 0 < m.avg_views
      then m.avg_views / (m.subscribers : ℚ) * 100 else 0) := by
  simp only [process_telemetrio_data] at h
  split at h
  · exact Except.noConfusion h
  · split at h
    · exact Except.noConfusion h
    · injection h with h
      subst h
      exact ⟨rfl, rfl⟩

def c3Harv : HarvPayload := { subs := 3, avg_views := 1 }

/-- Claim C3 counterexample: a harvester payload with 3 subscribers and
avg_views 1 yields a stored engagement rate of 33.33 (a two-decimal
rounding), which is not the exact avg_views/subscribers×100 = 100/3 the
claim asserts. -/
theorem c3_counterexample :
    (process_harvester_data c3Harv).engagement_rate = pyRound2 (1 / 3 * 100) ∧
    (0:ℚ) < c3Harv.subs ∧
    pyRound2 (1 / 3 * 100) ≠ 1 / 3 * 100 := by
  refine ⟨?_, by norm_num [c3Harv], ?_⟩
  · simp only [process_harvester_data, c3Harv]
    rw [if_pos ⟨by norm_num, by norm_num⟩]
  · norm_num [pyRound2, roundHalfEven]

/-- Claim C3 (amended): each normalizer recomputes the stored engagement rate
as the two-decimal rounding of avg_views/subscribers×100 when both inputs are
positive (harvester: both nonzero), stores exactly 0 when subscribers is 0 or
avg_views is 0, and never copies an engagement field of the raw payload —
the output is invariant under the payload's `er` field. -/
theorem engagement_rate_recomputed (u : String) (p : TelemetrioPayload) (v : RawField)
    (hv : HarvPayload) (t : TGStatPayload) (ad : Option ℤ) (lp : Option PyDateTime)
    (q : ℚ) (m : ChannelMetrics) :
    (process_telemetrio_data u p = .ok m →
      (0 < m.subscribers → 0 < m.avg_views →
        m.engagement_rate = pyRound2 (m.avg_views / (m.subscribers : ℚ) * 100)) ∧
      (m.subscribers ≤ 0 ∨ m.avg_views ≤ 0 → m.engagement_rate = 0)) ∧
    process_telemetrio_data u { p with er := v } = process_telemetrio_data u p ∧
    ((hv.subs ≠ 0 → hv.avg_views ≠ 0 →
        (process_harvester_data hv).engagement_rate
          = pyRound2 (hv.avg_views / hv.subs * 100)) ∧
      (hv.subs = 0 → (process_harvester_data hv).engagement_rate = 0) ∧
      (hv.avg_views = 0 → (process_harvester_data hv).engagement_rate = 0)) ∧
    ((0 < t.participantsCount →
        (process_tgstat_data u t ad lp).engagement_rate
          = pyRound2 (t.avgPostReach.getD 0 / t.participantsCount * 100)) ∧
      (t.participantsCount = 0 → (process_tgstat_data u t ad lp).engagement_rate = 0) ∧
      (t.avgPostReach.getD 0 = 0 →
        (process_tgstat_data u t ad lp).engagement_rate = 0)) ∧
    process_tgstat_data u { t with er := q } ad lp = process_tgstat_data u t ad lp := by
  refine ⟨?_, rfl, ⟨?_, ?_, ?_⟩, ⟨?_, ?_, ?_⟩, rfl⟩
  · intro hok
    obtain ⟨hs, he⟩ := process_telemetrio_ok_fields u p m hok
    constructor
    · intro h1 h2
      rw [he, if_pos ⟨h1, h2⟩]
    · intro h12
      rw [he, if_neg, pyRound2_zero]
      rintro ⟨hh1, hh2⟩
      rcases h12 with h | h
      · omega
      · linarith
  · intro h1 h2
    simp only [process_harvester_data]
    rw [if_pos ⟨h1, h2⟩]
  · intro h0
    simp only [process_harvester_data]
    rw [if_neg, pyRound2_zero]
    rintro ⟨hh1, _⟩
    exact hh1 h0
  · intro h0
    simp only [process_harvester_data]
    rw [if_neg, pyRound2_zero]
    rintro ⟨_, hh2⟩
    exact hh2 h0
  · intro hpos
    rcases hav : t.avgPostReach with _ | av
    · simp only [process_tgstat_data, hav, Option.getD_none]
      norm_num
    · simp only [process_tgstat_data, hav, Option.getD_some]
      rw [if_pos hpos]
  · intro h0
    rcases hav : t.avgPostReach with _ | av
    · simp only [process_tgstat_data, hav]
      exact pyRound2_zero
    · simp only [process_tgstat_data, hav, h0]
      rw [if_neg (lt_irrefl 0), pyRound2_zero]
  · intro h0
    rcases hav : t.avgPostReach with _ | av
    · simp only [process_tgstat_data, hav]
      exact pyRound2_zero
    · rw [hav, Option.getD_some] at h0
      subst h0
      simp only [process_tgstat_data, hav]
      split_ifs <;> simp [pyRound2_zero]

def c3HarvW : HarvPayload := { subs := 2, avg_views := 1 }

def c3TgW : TGStatPayload := { participantsCount := 4, avgPostReach := some 1 }

theorem engagement_rate_recomputed_witness :
    (process_harvester_data c3HarvW).engagement_rate
      = pyRound2 (c3HarvW.avg_views / c3HarvW.subs * 100) ∧
    (process_tgstat_data "w" c3TgW none none).engagement_rate
      = pyRound2 (c3TgW.avgPostReach.getD 0 / c3TgW.participantsCount * 100) := by
  have H := engagement_rate_recomputed "w" {} RawField.absent c3HarvW c3TgW none none 0
    emptyMetrics
  exact ⟨H.2.2.1.1 (by norm_num [c3HarvW]) (by norm_num [c3HarvW]),
    H.2.2.2.1.1 (by norm_num [c3TgW])⟩

theorem pyTrunc_nonneg {q : ℚ} (h : 0 ≤ q) : 0 ≤ pyTrunc q := by
  unfold pyTrunc
  rw [if_pos h]
  exact Int.floor_nonneg.mpr h

/-- Shape of a candidate subscriber field holding a non-negative value: a
non-negative number, a numeric string whose parse (after separator
stripping) is non-negative, or a value the extractor skips entirely. -/
def RawFieldNonneg : RawField → Prop
  | RawField.num q => 0 ≤ q
  | RawField.str s => ∀ n, pyInt? (cleanSubsStr s) = some n → 0 ≤ n
  | _ => True

theorem subsCandidate_nonneg {f : RawField} (h : RawFieldNonneg f) :
    ∀ n, subsCandidate f = some n → 0 ≤ n := by
  intro n hn
  cases f with
  | absent => exact Option.noConfusion hn
  | num q =>
    obtain rfl : pyTrunc q = n := Option.some.inj hn
    exact pyTrunc_nonneg h
  | str s => exact h n hn
  | other => exact Option.noConfusion hn

theorem findSome?_subs_nonneg (l : List RawField)
    (h : ∀ f ∈ l, ∀ n, subsCandidate f = some n → 0 ≤ n) :
    ∀ n, l.findSome? subsCandidate = some n → 0 ≤ n := by
  induction l with
  | nil => intro n hn; simp [List.findSome?_nil] at hn
  | cons a as ih =>
    intro n hn
    cases hca : subsCandidate a with
    | some b =>
      simp only [List.findSome?_cons, hca] at hn
      obtain rfl : b = n := Option.some.inj hn
      exact h a (List.mem_cons_self a as) b hca
    | none =>
      simp only [List.findSome?_cons, hca] at hn
      exact ih (fun f hf => h f (List.mem_cons_of_mem a hf)) n hn

theorem extract_subscribers_nonneg (fields : SubsFields) (stats : Option SubsFields)
    (hf : ∀ f ∈ subsFieldList fields, ∀ n, subsCandidate f = some n → 0 ≤ n)
    (hs : ∀ st, stats = some st →
      ∀ f ∈ subsFieldList st, ∀ n, subsCandidate f = some n → 0 ≤ n) :
    0 ≤ extract_subscribers fields stats := by
  rcases hef : extractFromFields fields with _ | n
  · rcases stats with _ | st
    · simp [extract_subscribers, hef]
    · rcases hes : extractFromFields st with _ | k
      · simp [extract_subscribers, hef, hes]
      · simp only [extract_subscribers, hef, hes, Option.getD_some]
        exact findSome?_subs_nonneg _ (hs st rfl) k hes
  · simp only [extract_subscribers, hef]
    exact findSome?_subs_nonneg _ hf n hef

def c4Payload : TelemetrioPayload := { fields := { subscribers := .num (-5) } }

def c4PayloadStr : TelemetrioPayload := { fields := { member_count := .str "-5" } }

/-- Claim C4 counterexample: negative raw subscriber values — a plain number
and a numeric string — pass through extraction unclamped, producing canonical
records with subscribers = -5 < 0. -/
theorem c4_counterexample :
    (process_telemetrio_data "c" c4Payload).map ChannelMetrics.subscribers = .ok (-5) ∧
    (process_telemetrio_data "c" c4PayloadStr).map ChannelMetrics.subscribers = .ok (-5) ∧
    (-5 : ℤ) < 0 := ⟨rfl, rfl, by norm_num⟩

/-- Claim C4 (amended): for every payload whose candidate subscriber fields
hold non-negative numbers or non-negative numeric strings (and whose
harvester/TGStat counts are non-negative), the subscriber count in every
normalizer's canonical record is non-negative; negative raw values, however,
pass through unclamped. -/
theorem normalized_subscribers_nonneg (u : String) (p : TelemetrioPayload) (hv : HarvPayload)
    (t : TGStatPayload) (ad : Option ℤ) (lp : Option PyDateTime) (m : ChannelMetrics)
    (hp : ∀ f ∈ subsFieldList p.fields, RawFieldNonneg f)
    (hst : ∀ st, p.stats = some st → ∀ f ∈ subsFieldList st, RawFieldNonneg f)
    (hhv : 0 ≤ hv.subs) (ht : 0 ≤ t.participantsCount) :
    (process_telemetrio_data u p = .ok m → 0 ≤ m.subscribers) ∧
    0 ≤ (process_harvester_data hv).subscribers ∧
    0 ≤ (process_tgstat_data u t ad lp).subscribers := by
  refine ⟨?_, ?_, ?_⟩
  · intro hok
    rw [(process_telemetrio_ok_fields u p m hok).1]
    exact extract_subscribers_nonneg p.fields p.stats
      (fun f hf => subsCandidate_nonneg (hp f hf))
      (fun st hstq f hf => subsCandidate_nonneg (hst st hstq f hf))
  · simp only [process_harvester_data]
    exact pyTrunc_nonneg hhv
  · simp only [process_tgstat_data]
    exact pyTrunc_nonneg ht

theorem normalized_subscribers_nonneg_witness :
    0 ≤ (process_harvester_data ({} : HarvPayload)).subscribers ∧
    0 ≤ (process_tgstat_data "w" ({} : TGStatPayload) none none).subscribers := by
  have H := normalized_subscribers_nonneg "w" {} {} {} none none emptyMetrics
    (by intro f hf; simp only [subsFieldList] at hf; fin_cases hf <;> trivial)
    (by intro st hst; exact absurd hst (by simp))
    (le_refl 0) (le_refl 0)
  exact ⟨H.2.1, H.2.2⟩

/-- Helper: the Telemetr.io quality scorer succeeds whenever the raw
`avg_views` field is absent or numeric. -/
theorem assess_telemetrio_quality_ok (p : TelemetrioPayload)
    (h : p.avg_views = .absent ∨ ∃ q, p.avg_views = .num q) :
    ∃ q, assess_telemetrio_quality p = .ok q := by
  simp only [assess_telemetrio_quality]
  rcases h with h | ⟨qv, h⟩ <;> rw [h] <;> split_ifs <;> exact ⟨_, rfl⟩

/-- Claim C5 (amended): the Telemetr.io normalizer never fails on missing
keys — every absent field falls back to a default — and returns a record for
every payload whose avg_views (and avgViews fallback) is absent or numeric;
it is not total over malformed strings, which raise instead. -/
theorem telemetrio_normalization_total (u : String) (p : TelemetrioPayload)
    (h1 : p.avg_views = .absent ∨ ∃ q, p.avg_views = .num q)
    (h2 : p.avgViews = .absent ∨ ∃ q, p.avgViews = .num q) :
    ∃ m, process_telemetrio_data u p = .ok m := by
  obtain ⟨qq, hq⟩ := assess_telemetrio_quality_ok p h1
  simp only [process_telemetrio_data, hq]
  rcases h1 with h1 | ⟨a, h1⟩ <;> rcases h2 with h2 | ⟨b, h2⟩ <;>
    simp only [h1, h2] <;> exact ⟨_, rfl⟩

theorem telemetrio_normalization_total_witness :
    ∃ m, process_telemetrio_data "x" ({} : TelemetrioPayload) = .ok m :=
  telemetrio_normalization_total "x" {} (Or.inl rfl) (Or.inl rfl)

/-- Claim C5 counterexample: a payload whose avg_views field is the
non-numeric string "abc" makes the Telemetr.io normalizer raise an uncaught
error instead of producing a record with a default value. -/
theorem c5_counterexample :
    process_telemetrio_data "x" { avg_views := .str "abc" } = .error () := rfl

/-- Claim C6 (code bug): because each format is tried on the input truncated
to the format string's own length (8 and 17 characters), none of the three
well-formed canonical date strings — date-only YYYY-MM-DD, date+time with
the T separator, date+time with a space — ever parses; all fall back to
"now minus one day".  Only degenerate non-zero-padded strings such as
"2024-1-5" can parse at all. -/
theorem last_post_date_truncation_bug :
    parse_last_post_date { last_post := some "2024-01-15" } = .nowMinusDays 1 ∧
    parse_last_post_date { last_post := some "2024-01-15T10:30:45" } = .nowMinusDays 1 ∧
    parse_last_post_date { last_post := some "2024-01-15 10:30:45" } = .nowMinusDays 1 ∧
    parse_last_post_date { last_post := some "2024-1-5" }
      = .known { year := 2024, month := 1, day := 5 } :=
  ⟨rfl, rfl, rfl, rfl⟩

theorem merge_harvester_frame_fields (m : ChannelMetrics) (harv : Option HarvPayload) :
    (merge_harvester m harv).username = m.username ∧
    (merge_harvester m harv).title = m.title ∧
    (merge_harvester m harv).subscribers = m.subscribers ∧
    (merge_harvester m harv).avg_views = m.avg_views ∧
    (merge_harvester m harv).engagement_rate = m.engagement_rate ∧
    (merge_harvester m harv).recent_posts = m.recent_posts ∧
    (merge_harvester m harv).last_post_date = m.last_post_date ∧
    (merge_harvester m harv).niche = m.niche ∧
    (merge_harvester m harv).has_profile_photo = m.has_profile_photo ∧
    (merge_harvester m harv).content_quality_score = m.content_quality_score ∧
    (merge_harvester m harv).is_public = m.is_public := by
  rcases harv with _ | h
  · simp [merge_harvester]
  · simp only [merge_harvester]
    rcases h.is_verified with _ | v <;> rcases h.posts_per_day with _ | ppd <;>
      split_ifs <;> simp

theorem merge_harvester_verified_none (m : ChannelMetrics) (h : HarvPayload)
    (hv : h.is_verified = none) :
    (merge_harvester m (some h)).is_verified = m.is_verified := by
  simp only [merge_harvester, hv]
  rcases h.posts_per_day with _ | ppd <;> split_ifs <;> simp

theorem merge_harvester_override (m : ChannelMetrics) (h : HarvPayload) (v : Bool)
    (hv : h.is_verified = some v)
    (hgap : pyStrip m.description = "" ∨ m.posts_per_day = 0 ∨
      (m.total_reactions = 0 ∧ m.total_forwards = 0 ∧ m.media_ratio = 0)) :
    (merge_harvester m (some h)).is_verified = v := by
  simp only [merge_harvester, hv]
  rw [if_pos hgap]

/-- Claim C7 (amended): when a supplementary harvester call is issued because
of a gap, every field the primary supplied in full other than the
verification flag is left unchanged — title, subscribers, avg_views,
engagement rate and the other non-gap fields; the verification flag,
contrary to the original claim, is overwritten whenever the secondary record
supplies one. -/
theorem merge_supplementation_frame (m : ChannelMetrics) (harv : Option HarvPayload) :
    (merge_harvester m harv).username = m.username ∧
    (merge_harvester m harv).title = m.title ∧
    (merge_harvester m harv).subscribers = m.subscribers ∧
    (merge_harvester m harv).avg_views = m.avg_views ∧
    (merge_harvester m harv).engagement_rate = m.engagement_rate ∧
    (merge_harvester m harv).recent_posts = m.recent_posts ∧
    (merge_harvester m harv).last_post_date = m.last_post_date ∧
    (merge_harvester m harv).niche = m.niche ∧
    (merge_harvester m harv).has_profile_photo = m.has_profile_photo ∧
    (merge_harvester m harv).content_quality_score = m.content_quality_score ∧
    (merge_harvester m harv).is_public = m.is_public ∧
    (∀ h, harv = some h → h.is_verified = none →
      (merge_harvester m harv).is_verified = m.is_verified) ∧
    (∀ h v, harv = some h → h.is_verified = some v →
      (pyStrip m.description = "" ∨ m.posts_per_day = 0 ∨
        (m.total_reactions = 0 ∧ m.total_forwards = 0 ∧ m.media_ratio = 0)) →
      (merge_harvester m harv).is_verified = v) := by
  obtain ⟨h1, h2, h3, h4, h5, h6, h7, h8, h9, h10, h11⟩ :=
    merge_harvester_frame_fields m harv
  refine ⟨h1, h2, h3, h4, h5, h6, h7, h8, h9, h10, h11, ?_, ?_⟩
  · rintro h rfl hvnone
    exact merge_harvester_verified_none m h hvnone
  · rintro h v rfl hv hgap
    exact merge_harvester_override m h v hv hgap

def c7Metrics : ChannelMetrics :=
  { emptyMetrics with
    is_verified := true
    description := "primary description"
    total_reactions := 5
    posts_per_day := 0 }

def c7Harv : HarvPayload := { is_verified := some false }

theorem merge_supplementation_frame_witness :
    (merge_harvester c7Metrics (some c7Harv)).title = c7Metrics.title ∧
    (merge_harvester c7Metrics (some c7Harv)).is_verified = false := by
  have H := merge_supplementation_frame c7Metrics (some c7Harv)
  exact ⟨H.2.1, H.2.2.2.2.2.2.2.2.2.2.2.2 c7Harv false rfl rfl (Or.inr (Or.inl rfl))⟩

/-- Claim C7 counterexample: the primary record is verified, a posts-per-day
gap triggers the supplementary call, and the merge overwrites the
verification flag the primary already supplied: is_verified flips from true
to false. -/
theorem c7_counterexample :
    (merge_harvester c7Metrics (some c7Harv)).is_verified = false ∧
    c7Metrics.is_verified = true := ⟨rfl, rfl⟩

/-- Claim C8: niche classification lower-cases title+description and returns
the first category in declaration order with a keyword substring match: any
text containing both a crypto keyword and a tech keyword classifies as
crypto, and text matching no keyword defaults to entertainment. -/
theorem classify_niche_priority (title description : String) :
    ((∃ k ∈ ["crypto", "bitcoin", "blockchain", "defi", "nft", "trading", "altcoin"],
        containsSub (pyLower (title ++ " " ++ description)) k = true) →
      (∃ k ∈ ["tech", "technology", "programming", "ai", "software", "developer"],
        containsSub (pyLower (title ++ " " ++ description)) k = true) →
      classify_niche title description = .crypto) ∧
    ((∀ p ∈ nicheKeywords, ∀ k ∈ p.2,
        containsSub (pyLower (title ++ " " ++ description)) k = false) →
      classify_niche title description = .entertainment) := by
  constructor
  · intro h1 _
    obtain ⟨k, hk, hck⟩ := h1
    have hany : (["crypto", "bitcoin", "blockchain", "defi", "nft", "trading",
        "altcoin"].any fun kw => containsSub (pyLower (title ++ " " ++ description)) kw)
        = true := List.any_eq_true.mpr ⟨k, hk, hck⟩
    simp only [classify_niche, nicheKeywords, List.find?_cons, hany]
  · intro h
    have hnone : nicheKeywords.find?
        (fun p => p.2.any fun k => containsSub (pyLower (title ++ " " ++ description)) k)
          = none := by
      rw [List.find?_eq_none]
      intro x hx hx2
      rw [List.any_eq_true] at hx2
      obtain ⟨k, hk, hck⟩ := hx2
      rw [h x hx k hk] at hck
      exact Bool.noConfusion hck
    simp only [classify_niche, hnone]

theorem classify_niche_priority_witness :
    classify_niche "bitcoin programming" "" = .crypto ∧
    classify_niche "hello world" "" = .entertainment :=
  ⟨(classify_niche_priority "bitcoin programming" "").1 (by decide) (by decide),
    (classify_niche_priority "hello world" "").2 (by decide)⟩

theorem min_unit_bound {a : ℚ} (h : 0 ≤ a) : 0 ≤ min a 1 ∧ min a 1 ≤ 1 :=
  ⟨le_min h (by norm_num), min_le_right _ _⟩

set_option maxHeartbeats 1000000 in
/-- Claim C9: each provider-specific content-quality scorer returns a value
in [0, 1] for every payload and every combination of bonus triggers. -/
theorem quality_scores_in_unit_interval (p : TelemetrioPayload) (hv : HarvPayload)
    (t : TGStatPayload) (subs er : ℚ) (ad : Option ℤ) :
    (∀ q, assess_telemetrio_quality p = .ok q → 0 ≤ q ∧ q ≤ 1) ∧
    (0 ≤ assess_harvester_quality hv ∧ assess_harvester_quality hv ≤ 1) ∧
    (0 ≤ assess_tgstat_quality t subs er ad ∧ assess_tgstat_quality t subs er ad ≤ 1) := by
  refine ⟨?_, ?_, ?_⟩
  · intro q hq
    simp only [assess_telemetrio_quality] at hq
    rcases hav : p.avg_views with _ | av | s | _ <;> rw [hav] at hq <;>
      split_ifs at hq <;>
      first
        | exact Except.noConfusion hq
        | (injection hq with hq; subst hq;
           exact min_unit_bound (by first | (split_ifs <;> norm_num) | norm_num))
  · simp only [assess_harvester_quality]
    split_ifs <;> exact min_unit_bound (by norm_num)
  · unfold assess_tgstat_quality
    refine min_unit_bound
      (add_nonneg (add_nonneg (add_nonneg (add_nonneg (add_nonneg (by norm_num) ?_) ?_) ?_)
        ?_) ?_)
    · split_ifs <;> norm_num
    · split_ifs <;> norm_num
    · split_ifs <;> norm_num
    · split_ifs <;> norm_num
    · rcases t.createdAt with _ | s
      · exact le_refl 0
      · rcases ad with _ | days
        · exact le_refl 0
        · show (0:ℚ) ≤ if days > 365 then 1/10 else 0
          split_ifs <;> norm_num

theorem quality_scores_in_unit_interval_witness :
    0 ≤ (1/2 : ℚ) ∧ (1/2 : ℚ) ≤ 1 :=
  (quality_scores_in_unit_interval {} {} {} 0 0 none).1 (1/2) (by
    norm_num [assess_telemetrio_quality, extract_subscribers, extractFromFields,
      subsFieldList, subsCandidate, List.findSome?_cons, List.findSome?_nil, min_def])

/-- Claim C10: the eligibility evaluator's confidence always lies in
[0.5, 1]: the four warning decrements sum to 0.5, hard-requirement failures
never touch confidence, and nothing ever increases it above its 1.0 start. -/
theorem eligibility_confidence_bounds (cfg : Config) (m : ChannelMetrics) (d : ℤ) :
    1/2 ≤ (check_eligibility cfg m d).confidence ∧
    (check_eligibility cfg m d).confidence ≤ 1 := by
  simp only [check_eligibility]
  split_ifs <;> constructor <;> norm_num [le_max_iff, max_le_iff]

end TgCpm
